import Mathlib

/-!
Verification of the `crypto-data-aggregator` Python SDK client
(`src/sdk/python/crypto_api_v2.py`, class `CryptoAPI`), as a shallow
embedding.  Pure request construction (`_build_query`, URL/header/body
assembly) becomes Lean functions; the network exchange performed by
`_request` becomes a function from the client state and the transport's
outcome (an HTTP response, or a transport-level failure) to the updated
client state and an observable result (returned JSON value, raised typed
exception, or an uncaught Python runtime exception).
-/

/-! ## JSON values

Model of the values `json.loads` produces and `json.dumps` consumes:
objects are association lists in insertion order (Python dicts preserve
insertion order and have unique keys).  Numbers are modelled as integers,
which covers every numeric literal the claims touch. -/

inductive Json where
  | null : Json
  | bool : Bool → Json
  | num : Int → Json
  | str : String → Json
  | arr : List Json → Json
  | obj : List (String × Json) → Json

/-- Python `dict.get(k, d)` on a parsed JSON object: first (unique) binding
of `k`, else the default `d`. -/
def jsonGetD (fields : List (String × Json)) (k : String) (d : Json) : Json :=
  match fields.find? (fun p => p.1 == k) with
  | some p => p.2
  | none => d

/-- Field lookup on a JSON value (`j["data"]`-style access used by the
spec's scenarios); `none` when the value is not an object or lacks the key. -/
def jsonLookup (j : Json) (k : String) : Option Json :=
  match j with
  | Json.obj fields => (fields.find? (fun p => p.1 == k)).map (fun p => p.2)
  | _ => none

/-! ## Python `json.dumps`

Serialization with the default options (`ensure_ascii=True`, separators
`", "` and `": "`), as used for request bodies at line 131 of the source. -/

/-- Uppercase hexadecimal digit (used by percent-encoding). -/
def hexDigitUpper (n : Nat) : Char :=
  if n < 10 then Char.ofNat (48 + n) else Char.ofNat (55 + n)

/-- Lowercase hexadecimal digit (used by `json.dumps` \uXXXX escapes). -/
def hexDigitLower (n : Nat) : Char :=
  if n < 10 then Char.ofNat (48 + n) else Char.ofNat (87 + n)

/-- Four-digit lowercase hex rendering of a code unit. -/
def hex4 (n : Nat) : String :=
  String.mk [hexDigitLower (n / 4096 % 16), hexDigitLower (n / 256 % 16),
             hexDigitLower (n / 16 % 16), hexDigitLower (n % 16)]

/-- JSON string-character escaping as Python's `json.dumps` performs it with
`ensure_ascii=True`: short escapes for the usual controls, `\uXXXX`
(surrogate pairs above the BMP) for other controls and all non-ASCII. -/
def jsonEscapeChar (c : Char) : String :=
  if c = '"' then "\\\""
  else if c = '\\' then "\\\\"
  else if c = '\n' then "\\n"
  else if c = '\r' then "\\r"
  else if c = '\t' then "\\t"
  else if c.toNat = 8 then "\\b"
  else if c.toNat = 12 then "\\f"
  else if c.toNat < 32 then "\\u" ++ hex4 c.toNat
  else if c.toNat < 127 then String.singleton c
  else if c.toNat < 65536 then "\\u" ++ hex4 c.toNat
  else
    let v := c.toNat - 65536
    "\\u" ++ hex4 (55296 + v / 1024) ++ "\\u" ++ hex4 (56320 + v % 1024)

/-- `json.dumps` of a string value, quotes included. -/
def jsonDumpString (s : String) : String :=
  "\"" ++ (s.data.map jsonEscapeChar).foldl (fun a b => a ++ b) "" ++ "\""

mutual

/-- `json.dumps(value)` with Python's default separators. -/
def Json.dumps : Json → String
  | Json.null => "null"
  | Json.bool true => "true"
  | Json.bool false => "false"
  | Json.num n => toString n
  | Json.str s => jsonDumpString s
  | Json.arr l => "[" ++ jsonDumpsList l ++ "]"
  | Json.obj l => "\x7b" ++ jsonDumpsFields l ++ "\x7d"

/-- Comma-separated rendering of a JSON array's elements. -/
def jsonDumpsList : List Json → String
  | [] => ""
  | [x] => Json.dumps x
  | x :: xs => Json.dumps x ++ ", " ++ jsonDumpsList xs

/-- Comma-separated rendering of a JSON object's fields. -/
def jsonDumpsFields : List (String × Json) → String
  | [] => ""
  | [(k, v)] => jsonDumpString k ++ ": " ++ Json.dumps v
  | (k, v) :: xs => jsonDumpString k ++ ": " ++ Json.dumps v ++ ", " ++ jsonDumpsFields xs

end

/-! ## Python `int()` on strings

Model of `int(s)` for a decimal string: surrounding whitespace stripped,
optional sign, nonempty digit run.  (Underscore digit grouping, accepted by
CPython between digits, is not modelled; no claim exercises it.)  `none`
models the `ValueError` raise. -/

/-- Value of a nonempty all-digit character list, else `none`. -/
def digitsVal? (cs : List Char) : Option Nat :=
  match cs with
  | [] => none
  | _ =>
    cs.foldl
      (fun acc c =>
        match acc with
        | none => none
        | some n => if c.isDigit then some (n * 10 + (c.toNat - 48)) else none)
      (some 0)

/-- Whitespace characters `int()` strips (ASCII subset). -/
def isPySpace (c : Char) : Bool :=
  c == ' ' || c == '\t' || c == '\n' || c == '\r' || c.toNat == 11 || c.toNat == 12

/-- Strip leading and trailing whitespace from a character list. -/
def stripChars (cs : List Char) : List Char :=
  ((cs.dropWhile isPySpace).reverse.dropWhile isPySpace).reverse

/-- Python `int(s)` on a string: `some` the parsed integer, `none` models a
`ValueError`. -/
def pyInt? (s : String) : Option Int :=
  match stripChars s.data with
  | '+' :: cs => (digitsVal? cs).map Int.ofNat
  | '-' :: cs => (digitsVal? cs).map (fun n => -(n : Int))
  | cs => (digitsVal? cs).map Int.ofNat

/-! ## URL encoding (`urllib.parse.quote`, `quote_plus`, `urlencode`)

`quote` / `quote_plus` operate on the UTF-8 bytes of the string: unreserved
bytes (ALPHA / DIGIT / `-` `.` `_` `~`) pass through, `quote` keeps its
`safe` set (default `'/'`), `quote_plus` turns a space into `+`, everything
else becomes `%XX` with uppercase hex. -/

/-- UTF-8 encoding of one character, bytes as `Nat`s. -/
def charUtf8 (c : Char) : List Nat :=
  let n := c.toNat
  if n < 128 then [n]
  else if n < 2048 then [192 + n / 64, 128 + n % 64]
  else if n < 65536 then [224 + n / 4096, 128 + n / 64 % 64, 128 + n % 64]
  else [240 + n / 262144, 128 + n / 4096 % 64, 128 + n / 64 % 64, 128 + n % 64]

/-- UTF-8 bytes of a string. -/
def strUtf8 (s : String) : List Nat :=
  (s.data.map charUtf8).flatten

/-- Bytes `urllib.parse` never encodes (ALPHA, DIGIT, `-` `.` `_` `~`). -/
def urlSafeByte (b : Nat) : Bool :=
  (65 ≤ b && b ≤ 90) || (97 ≤ b && b ≤ 122) || (48 ≤ b && b ≤ 57) ||
    b == 45 || b == 46 || b == 95 || b == 126

/-- `%XX` percent-encoding of one byte, uppercase hex. -/
def percentEnc (b : Nat) : String :=
  String.mk ['%', hexDigitUpper (b / 16 % 16), hexDigitUpper (b % 16)]

/-- `urllib.parse.quote(s)` with the default `safe='/'` (used for path
segments such as the coin id). -/
def pyQuote (s : String) : String :=
  (strUtf8 s).foldl
    (fun acc b =>
      acc ++ (if urlSafeByte b || b == 47 then String.singleton (Char.ofNat b)
              else percentEnc b))
    ""

/-- `urllib.parse.quote_plus(s)`: like `quote` with an empty safe set, and a
space becomes `+` (used for query keys and values by `urlencode`). -/
def quotePlus (s : String) : String :=
  (strUtf8 s).foldl
    (fun acc b =>
      acc ++ (if urlSafeByte b then String.singleton (Char.ofNat b)
              else if b == 32 then "+"
              else percentEnc b))
    ""

/-- `urllib.parse.urlencode(d)` over the (insertion-ordered, stringified)
items of a dict: `quote_plus(k) + '=' + quote_plus(v)` joined by `&`. -/
def urlencode (l : List (String × String)) : String :=
  String.intercalate "&" (l.map (fun p => quotePlus p.1 ++ "=" ++ quotePlus p.2))

/-! ## `CryptoAPI._build_query`

Source lines 175-180.  Parameter values are modelled post-`str()` (the
source's `urlencode` stringifies values; callers below apply `toString` at
the boundary where they pass integers), with `none` for Python `None`. -/

/-- The dict comprehension `{k: v for k, v in params.items() if v is not None}`:
surviving entries in insertion order. -/
def filterParams (params : List (String × Option String)) : List (String × String) :=
  params.filterMap (fun p => p.2.map (fun v => (p.1, v)))

/-- `CryptoAPI._build_query(params)`: drop `None`-valued entries, return `''`
when nothing survives, else `'?' + urlencode(filtered)`. -/
def build_query (params : List (String × Option String)) : String :=
  let filtered := filterParams params
  if filtered.isEmpty then "" else "?" ++ urlencode filtered

/-! ## Client state and request construction -/

/-- `CryptoAPI.BASE_URL`. -/
def BASE_URL : String := "https://crypto-data-aggregator.vercel.app"

/-- `CryptoAPI.API_VERSION`. -/
def API_VERSION : String := "v2"

/-- `RateLimitInfo` dataclass (source lines 66-71). -/
structure RateLimitInfo where
  remaining : Int
  limit : Int
  reset_at : Int
deriving DecidableEq, Repr

/-- Mutable state of a `CryptoAPI` instance (source lines 94-97). -/
structure ClientState where
  base_url : String
  api_key : Option String
  timeout : Int
  last_rate_limit : Option RateLimitInfo
deriving DecidableEq, Repr

/-- `CryptoAPI.__init__(api_key, base_url, timeout)`: `base_url or BASE_URL`
uses Python truthiness (a `None` or empty override falls back to the
constant). -/
def mkClient (api_key : Option String) (base_url : Option String) (timeout : Int) :
    ClientState :=
  { base_url :=
      match base_url with
      | some s => if s == "" then BASE_URL else s
      | none => BASE_URL
    api_key := api_key
    timeout := timeout
    last_rate_limit := none }

/-- `CryptoAPI.set_api_key(api_key)` (source lines 99-101): the parameter is
typed `str`, so the stored key is always `some`. -/
def set_api_key (c : ClientState) (k : String) : ClientState :=
  { c with api_key := some k }

/-- Python truthiness of an optional string (`if self.api_key:` etc.):
true exactly for a present, nonempty string. -/
def strTruthy (o : Option String) : Bool :=
  match o with
  | none => false
  | some s => s != ""

/-- Python truthiness of an optional dict (`if body:`): true exactly for a
present, nonempty dict. -/
def dictTruthy (o : Option (List (String × Json))) : Bool :=
  match o with
  | none => false
  | some l => !l.isEmpty

/-- The outgoing `urllib.request.Request` assembled by `_request`
(source lines 115-133): URL, headers in insertion order, optional
JSON-serialized body bytes, HTTP method. -/
structure HttpRequest where
  url : String
  headers : List (String × String)
  data : Option String
  method : String

/-- Request construction from `_request` (source lines 115-133): URL
`{base_url}/api/{API_VERSION}{endpoint}`; fixed Accept / Content-Type /
User-Agent headers; `X-API-Key` when `self.api_key` is truthy; `X-PAYMENT`
when `payment` is truthy; body serialized by `json.dumps` when truthy
(Python's `if body:`), otherwise `data = None`. -/
def buildRequest (c : ClientState) (endpoint : String) (method : String)
    (body : Option (List (String × Json))) (payment : Option String) : HttpRequest :=
  { url := c.base_url ++ "/api/" ++ API_VERSION ++ endpoint
    headers :=
      [("Accept", "application/json"),
       ("Content-Type", "application/json"),
       ("User-Agent", "CryptoAPI-SDK-Python/2.0")] ++
      (if strTruthy c.api_key then [("X-API-Key", c.api_key.getD "")] else []) ++
      (if strTruthy payment then [("X-PAYMENT", payment.getD "")] else [])
    data :=
      if dictTruthy body then body.map (fun f => Json.dumps (Json.obj f)) else none
    method := method }

/-! ## Response handling (`_request`, lines 135-173) -/

/-- An HTTP response as `_request` observes it: status, reason phrase,
headers, and the JSON-parse outcome of the raw body (`none` models a body
`json.loads` rejects). -/
structure HttpResponse where
  status : Nat
  reason : String
  headers : List (String × String)
  body : Option Json

/-- Outcome of the network exchange: a response (2xx is returned by
`urlopen`, anything else raises `urllib.error.HTTPError` carrying the same
data), or a transport-level failure (`urllib.error.URLError`) with its
reason. -/
inductive TransportResult where
  | response : HttpResponse → TransportResult
  | urlError : String → TransportResult

/-- ASCII lowercasing of one character (header names are ASCII). -/
def lowerChar (c : Char) : Char :=
  if 65 ≤ c.toNat && c.toNat ≤ 90 then Char.ofNat (c.toNat + 32) else c

/-- ASCII lowercasing of a string. -/
def lowerStr (s : String) : String :=
  String.mk (s.data.map lowerChar)

/-- `HTTPMessage.get(name)`: case-insensitive lookup, first match. -/
def headerGet (headers : List (String × String)) (name : String) : Option String :=
  (headers.find? (fun p => lowerStr p.1 == lowerStr name)).map (fun p => p.2)

/-- Observable result of `CryptoAPI._request`: the returned JSON value, one
of the SDK's typed exceptions, or an uncaught Python runtime exception
(`pyError`, tagged with the exception's kind).  `connectionError` carries the
full `CryptoAPIError` message; its `code` is the fixed `'CONNECTION_ERROR'`,
its `status` the constructor default `0` and its `details` `None`. -/
inductive ApiResult where
  | ok : Json → ApiResult
  | paymentRequired : Option String → ApiResult
  | rateLimited : Int → ApiResult
  | apiError : Json → Json → Nat → Json → ApiResult
  | connectionError : String → ApiResult
  | pyError : String → ApiResult

/-- `str(e)` for an `urllib.error.HTTPError`. -/
def httpErrorStr (status : Nat) (reason : String) : String :=
  "HTTP Error " ++ toString status ++ ": " ++ reason

/-- The `reset_at` computation `int(reset_at) * 1000 if reset_at else 0`
(source line 146): `0` for an absent or empty header, else the parsed
integer in milliseconds; `none` models the `ValueError` raise. -/
def resetMs (reset_at : Option String) : Option Int :=
  match reset_at with
  | none => some 0
  | some s => if s == "" then some 0 else (pyInt? s).map (fun n => n * 1000)

/-- Rate-limit header processing (source lines 138-147): when both
`X-RateLimit-Remaining` and `X-RateLimit-Limit` are truthy, parse the three
headers and replace the snapshot; otherwise keep the old snapshot.  A
`ValueError` from `int()` aborts the assignment with the snapshot
unchanged. -/
def updateRateLimit (old : Option RateLimitInfo) (headers : List (String × String)) :
    Except String (Option RateLimitInfo) :=
  let remaining := headerGet headers "X-RateLimit-Remaining"
  let limit := headerGet headers "X-RateLimit-Limit"
  let reset_at := headerGet headers "X-RateLimit-Reset"
  if strTruthy remaining && strTruthy limit then
    match pyInt? (remaining.getD ""), pyInt? (limit.getD ""), resetMs reset_at with
    | some m, some l, some z => Except.ok (some ⟨m, l, z⟩)
    | _, _, _ => Except.error "ValueError"
  else Except.ok old

/-- The `except urllib.error.HTTPError` branch (source lines 151-170):
synthesize `{'error': str(e)}` when the body is not JSON, then dispatch on
the status: 402 → `PaymentRequiredError` with the `X-Payment-Required`
header; 429 → `RateLimitError` with `int(headers.get('Retry-After', 60))`
(an unparsable header raises `ValueError`); otherwise a `CryptoAPIError`
built with `dict.get` defaults — which raises `AttributeError` when the
parsed body is not a JSON object. -/
def handleHttpError (c : ClientState) (r : HttpResponse) : ClientState × ApiResult :=
  let error_data : Json :=
    match r.body with
    | some j => j
    | none => Json.obj [("error", Json.str (httpErrorStr r.status r.reason))]
  if r.status == 402 then
    (c, ApiResult.paymentRequired (headerGet r.headers "X-Payment-Required"))
  else if r.status == 429 then
    match headerGet r.headers "Retry-After" with
    | none => (c, ApiResult.rateLimited 60)
    | some s =>
      match pyInt? s with
      | some n => (c, ApiResult.rateLimited n)
      | none => (c, ApiResult.pyError "ValueError")
  else
    match error_data with
    | Json.obj fields =>
      (c, ApiResult.apiError
            (jsonGetD fields "error" (Json.str "Request failed"))
            (jsonGetD fields "code" (Json.str "UNKNOWN"))
            r.status
            (jsonGetD fields "details" Json.null))
    | _ => (c, ApiResult.pyError "AttributeError")

/-- `CryptoAPI._request` response handling (source lines 135-173), as a
function of the transport's outcome.  On a 2xx response `urlopen` returns:
the rate-limit snapshot is updated from the headers (before the body is
read, so a body `json.loads` rejects still leaves the snapshot updated),
then the parsed body is returned.  On a non-2xx response `urlopen` raises
`HTTPError`, handled by `handleHttpError` with the snapshot untouched.  On a
`URLError` a `CryptoAPIError('Connection error: ' + reason,
'CONNECTION_ERROR')` is raised. -/
def runRequest (c : ClientState) (t : TransportResult) : ClientState × ApiResult :=
  match t with
  | TransportResult.urlError reason =>
    (c, ApiResult.connectionError ("Connection error: " ++ reason))
  | TransportResult.response r =>
    if 200 ≤ r.status ∧ r.status < 300 then
      match updateRateLimit c.last_rate_limit r.headers with
      | Except.error k => (c, ApiResult.pyError k)
      | Except.ok rl =>
        let c' := { c with last_rate_limit := rl }
        match r.body with
        | some j => (c', ApiResult.ok j)
        | none => (c', ApiResult.pyError "JSONDecodeError")
    else handleHttpError c r

/-! ## Public operations used by the claims -/

/-- The params dict `get_coins` passes to `_build_query` (source lines
207-213): integer values stringified, `sparkline` rendered
`str(sparkline).lower()` when truthy — i.e. `"true"` — and `None` (omitted)
when `False`. -/
def get_coins_params (page : Int) (per_page : Int) (order : String)
    (ids : Option String) (sparkline : Bool) : List (String × Option String) :=
  [("page", some (toString page)),
   ("per_page", some (toString per_page)),
   ("order", some order),
   ("ids", ids),
   ("sparkline", if sparkline then some "true" else none)]

/-- The endpoint string `get_coins` passes to `_request`: `f'/coins{query}'`. -/
def get_coins_endpoint (page : Int) (per_page : Int) (order : String)
    (ids : Option String) (sparkline : Bool) : String :=
  "/coins" ++ build_query (get_coins_params page per_page order ids sparkline)

/-- The endpoint string `get_coin` passes to `_request` (source line 226):
`f'/coin/{urllib.parse.quote(id)}'`. -/
def get_coin_endpoint (id : String) : String :=
  "/coin/" ++ pyQuote id

/-! ## Helper lemmas -/

/-- Membership in the filtered parameter list is membership with a present
value in the input mapping. -/
theorem mem_filterParams {l : List (String × Option String)} {k v : String} :
    (k, v) ∈ filterParams l ↔ (k, some v) ∈ l := by
  simp only [filterParams, List.mem_filterMap, Option.map_eq_some']
  constructor
  · rintro ⟨⟨k', o⟩, hm, w, rfl, hw⟩
    cases hw
    simpa using hm
  · intro hm
    exact ⟨(k, some v), hm, v, rfl, rfl⟩

/-- Filtering parameters keeps a sublist of the keys. -/
theorem filterParams_keys_sublist (l : List (String × Option String)) :
    List.Sublist ((filterParams l).map Prod.fst) (l.map Prod.fst) := by
  induction l with
  | nil => simp [filterParams]
  | cons a t ih =>
    obtain ⟨k, o⟩ := a
    cases o with
    | none =>
      simp only [filterParams, List.filterMap_cons, Option.map_none', List.map_cons]
      exact ih.cons _
    | some v =>
      simp only [filterParams, List.filterMap_cons, Option.map_some', List.map_cons]
      exact ih.cons₂ _

/-- In an association list with pairwise-distinct keys, a present key is hit
exactly once. -/
theorem countP_key_of_nodup {α : Type} (l : List (String × α)) (k : String) (v : α)
    (hnd : (l.map Prod.fst).Nodup) (hmem : (k, v) ∈ l) :
    l.countP (fun p => p.1 == k) = 1 := by
  induction l with
  | nil => cases hmem
  | cons a t ih =>
    rw [List.map_cons, List.nodup_cons] at hnd
    rw [List.countP_cons]
    rcases List.mem_cons.mp hmem with rfl | hm
    · have ht : t.countP (fun p => p.1 == k) = 0 := by
        rw [List.countP_eq_zero]
        intro p hp
        simp only [beq_iff_eq]
        intro he
        exact hnd.1 (List.mem_map.mpr ⟨p, hp, he⟩)
      simp [ht]
    · have hne : ¬((a.1 == k) = true) := by
        simp only [beq_iff_eq]
        intro he
        apply hnd.1
        rw [he]
        exact List.mem_map.mpr ⟨(k, v), hm, rfl⟩
      rw [ih hnd.2 hm]
      simp [hne]

/-- A string starting with a question mark is nonempty. -/
theorem qmark_append_ne (s : String) : ("?" ++ s) ≠ "" := by
  intro h
  have hl := congrArg String.length h
  rw [String.length_append] at hl
  have h1 : "?".length = 1 := rfl
  have h0 : "".length = 0 := rfl
  rw [h1, h0] at hl
  omega

/-- `build_query` written with the filtered list exposed. -/
theorem build_query_eq (params : List (String × Option String)) :
    build_query params =
      if (filterParams params).isEmpty then ""
      else "?" ++ urlencode (filterParams params) := rfl

/-- The `X-API-Key` header of a built request: present with the configured
key exactly when the stored key is truthy. -/
theorem headerGet_buildRequest_apiKey (c : ClientState) (e m : String)
    (b : Option (List (String × Json))) (p : Option String) :
    headerGet (buildRequest c e m b p).headers "X-API-Key" =
      (if strTruthy c.api_key then c.api_key else none) := by
  obtain ⟨bu, ak, tm, rl⟩ := c
  cases ak with
  | none =>
    cases p with
    | none => rfl
    | some q =>
      cases hsq : (q != "") with
      | false => simp only [buildRequest, headerGet, strTruthy, hsq]; rfl
      | true => simp only [buildRequest, headerGet, strTruthy, hsq]; rfl
  | some k =>
    cases hsk : (k != "") with
    | true => simp only [buildRequest, headerGet, strTruthy, hsk]; rfl
    | false =>
      cases p with
      | none => simp only [buildRequest, headerGet, strTruthy, hsk]; rfl
      | some q =>
        cases hsq : (q != "") with
        | false => simp only [buildRequest, headerGet, strTruthy, hsk, hsq]; rfl
        | true => simp only [buildRequest, headerGet, strTruthy, hsk, hsq]; rfl

/-- The `X-PAYMENT` header of a built request: present with the payment
token exactly when the token is truthy. -/
theorem headerGet_buildRequest_payment (c : ClientState) (e m : String)
    (b : Option (List (String × Json))) (p : Option String) :
    headerGet (buildRequest c e m b p).headers "X-PAYMENT" =
      (if strTruthy p then p else none) := by
  obtain ⟨bu, ak, tm, rl⟩ := c
  cases ak with
  | none =>
    cases p with
    | none => rfl
    | some q =>
      cases hsq : (q != "") with
      | false => simp only [buildRequest, headerGet, strTruthy, hsq]; rfl
      | true => simp only [buildRequest, headerGet, strTruthy, hsq]; rfl
  | some k =>
    cases hsk : (k != "") with
    | true =>
      cases p with
      | none => simp only [buildRequest, headerGet, strTruthy, hsk]; rfl
      | some q =>
        cases hsq : (q != "") with
        | false => simp only [buildRequest, headerGet, strTruthy, hsk, hsq]; rfl
        | true => simp only [buildRequest, headerGet, strTruthy, hsk, hsq]; rfl
    | false =>
      cases p with
      | none => simp only [buildRequest, headerGet, strTruthy, hsk]; rfl
      | some q =>
        cases hsq : (q != "") with
        | false => simp only [buildRequest, headerGet, strTruthy, hsk, hsq]; rfl
        | true => simp only [buildRequest, headerGet, strTruthy, hsk, hsq]; rfl

/-! ## Claims -/

/-- C1: for every parameter mapping passed to `_build_query` (keys unique,
as in a Python dict), keys with absent values never appear in the filtered
pair list the query string is built from; keys with present values appear
there exactly once, and the result is the empty string exactly when nothing
survives, otherwise a question mark followed by the URL-encoded pairs joined
by ampersands in insertion order. -/
theorem build_query_filters_and_encodes (params : List (String × Option String))
    (hnd : (params.map Prod.fst).Nodup) :
    (∀ k, (k, none) ∈ params → ∀ v, (k, v) ∉ filterParams params) ∧
    (∀ k v, (k, some v) ∈ params →
        (k, v) ∈ filterParams params ∧
        (filterParams params).countP (fun p => p.1 == k) = 1) ∧
    (build_query params = "" ↔ filterParams params = []) ∧
    (filterParams params ≠ [] →
        build_query params = "?" ++ String.intercalate "&"
          ((filterParams params).map (fun p => quotePlus p.1 ++ "=" ++ quotePlus p.2))) := by
  refine ⟨?_, ?_, ?_, ?_⟩
  · intro k hk v hv
    have hv' : (k, some v) ∈ params := mem_filterParams.mp hv
    have heq := List.inj_on_of_nodup_map hnd hk hv' rfl
    simp at heq
  · intro k v h
    have hm : (k, v) ∈ filterParams params := mem_filterParams.mpr h
    exact ⟨hm, countP_key_of_nodup _ k v
      (List.Nodup.sublist (filterParams_keys_sublist params) hnd) hm⟩
  · rw [build_query_eq]
    cases hfp : filterParams params with
    | nil => simp
    | cons a t =>
      simp only [List.isEmpty_cons, if_false, Bool.false_eq_true]
      constructor
      · intro h; exact absurd h (qmark_append_ne _)
      · intro h; cases h
  · intro h
    rw [build_query_eq]
    cases hfp : filterParams params with
    | nil => exact absurd hfp h
    | cons a t =>
      simp only [List.isEmpty_cons, if_false, Bool.false_eq_true]
      rfl

/-- C1 witness: the hypotheses hold and the theorem applies at a concrete
mapping with one present and one absent value. -/
theorem build_query_filters_and_encodes_witness :
    (([("a", some "1"), ("b", (none : Option String))]).map Prod.fst).Nodup ∧
    (build_query [("a", some "1"), ("b", none)] = "" ↔
        filterParams [("a", some "1"), ("b", none)] = []) :=
  ⟨by decide,
   (build_query_filters_and_encodes [("a", some "1"), ("b", none)] (by decide)).2.2.1⟩

/-- C2 counterexample: a failure response (HTTP 500) whose headers carry
both `X-RateLimit-Remaining: 10` and `X-RateLimit-Limit: 100` leaves the
rate-limit snapshot untouched (`none`), in contradiction with the claim
that the snapshot is updated on any response, success or failure: the
source only parses rate-limit headers inside the success branch, before
`urllib.error.HTTPError` is handled. -/
theorem rate_limit_not_updated_on_http_error :
    (runRequest (mkClient none none 30) (TransportResult.response ⟨500, "Internal Server Error",
        [("X-RateLimit-Remaining", "10"), ("X-RateLimit-Limit", "100"),
         ("X-RateLimit-Reset", "5")], none⟩)).1.last_rate_limit = none ∧
    (runRequest (mkClient none none 30) (TransportResult.response ⟨500, "Internal Server Error",
        [("X-RateLimit-Remaining", "10"), ("X-RateLimit-Limit", "100"),
         ("X-RateLimit-Reset", "5")], none⟩)).1.last_rate_limit ≠
      some ⟨10, 100, 5000⟩ :=
  ⟨rfl, by decide⟩

/-- C2 amended: the rate-limit snapshot update happens on successful (2xx)
responses only.  On such a response whose headers carry truthy
remaining-count and limit values that parse as integers, the snapshot is
replaced — whatever its previous value, so it reflects only the most recent
successful response — with the parsed values and the reset header converted
from seconds to milliseconds (zero when absent or empty). -/
theorem rate_limit_snapshot_on_success (c : ClientState) (r : HttpResponse)
    (rem lim : String) (m l z : Int)
    (hs : 200 ≤ r.status ∧ r.status < 300)
    (h1 : headerGet r.headers "X-RateLimit-Remaining" = some rem)
    (h2 : headerGet r.headers "X-RateLimit-Limit" = some lim)
    (h3 : pyInt? rem = some m) (h4 : pyInt? lim = some l)
    (h5 : resetMs (headerGet r.headers "X-RateLimit-Reset") = some z) :
    (runRequest c (TransportResult.response r)).1.last_rate_limit = some ⟨m, l, z⟩ := by
  have h0 : pyInt? "" = none := rfl
  have hrem : rem ≠ "" := by rintro rfl; rw [h0] at h3; exact Option.noConfusion h3
  have hlim : lim ≠ "" := by rintro rfl; rw [h0] at h4; exact Option.noConfusion h4
  have hu : updateRateLimit c.last_rate_limit r.headers = Except.ok (some ⟨m, l, z⟩) := by
    unfold updateRateLimit
    rw [h1, h2]
    simp only [Option.getD_some, strTruthy]
    rw [h3, h4, h5]
    have hcond : (rem != "" && lim != "") = true := by simp [bne_iff_ne, hrem, hlim]
    rw [hcond]
    simp
  simp only [runRequest]
  rw [if_pos hs, hu]
  cases r.body <;> rfl

/-- C2 witness: a 200 response with remaining 10, limit 100 and reset 5
leaves the snapshot at (10, 100, 5000). -/
theorem rate_limit_snapshot_on_success_witness :
    (runRequest (mkClient none none 30) (TransportResult.response ⟨200, "OK",
        [("X-RateLimit-Remaining", "10"), ("X-RateLimit-Limit", "100"),
         ("X-RateLimit-Reset", "5")], some Json.null⟩)).1.last_rate_limit =
      some ⟨10, 100, 5000⟩ :=
  rate_limit_snapshot_on_success _ _ "10" "100" 10 100 5000 (by decide) rfl rfl rfl rfl rfl

/-- C3 counterexample: a 429 response with the unparsable header
`Retry-After: abc` does not produce a rate-limited failure with the default
60 — the `int()` call raises `ValueError`, which escapes `_request`
uncaught. -/
theorem retry_after_unparsable_raises :
    (runRequest (mkClient none none 30) (TransportResult.response ⟨429, "Too Many Requests",
        [("Retry-After", "abc")], none⟩)).2 = ApiResult.pyError "ValueError" ∧
    (runRequest (mkClient none none 30) (TransportResult.response ⟨429, "Too Many Requests",
        [("Retry-After", "abc")], none⟩)).2 ≠ ApiResult.rateLimited 60 :=
  ⟨rfl, fun h => ApiResult.noConfusion h⟩

/-- C3 amended: on a 429 response the client fails rate-limited with the
integer parsed from `Retry-After` when that header is present and parsable,
and with the default 60 when it is absent; a present but unparsable header
instead raises an integer-parse error. -/
theorem retry_after_parsed_or_default (c : ClientState) (r : HttpResponse)
    (h429 : r.status = 429) :
    (headerGet r.headers "Retry-After" = none →
        (runRequest c (TransportResult.response r)).2 = ApiResult.rateLimited 60) ∧
    (∀ s n, headerGet r.headers "Retry-After" = some s → pyInt? s = some n →
        (runRequest c (TransportResult.response r)).2 = ApiResult.rateLimited n) := by
  constructor
  · intro hna
    simp [runRequest, handleHttpError, h429, hna]
  · intro s n hs hn
    simp [runRequest, handleHttpError, h429, hs, hn]

/-- C3 witness: a 429 response with `Retry-After: 45` yields retry-after 45. -/
theorem retry_after_parsed_or_default_witness :
    (runRequest (mkClient none none 30) (TransportResult.response ⟨429, "Too Many Requests",
        [("Retry-After", "45")], none⟩)).2 = ApiResult.rateLimited 45 :=
  (retry_after_parsed_or_default _ _ rfl).2 "45" 45 rfl rfl

/-- C4 counterexample: a 500 response whose body parses as JSON but not as
an object (here the array `[]`) does not produce a generic API error — the
`error_data.get(...)` call raises `AttributeError`, which escapes
`_request` uncaught. -/
theorem generic_error_nonobject_body_raises :
    (runRequest (mkClient none none 30) (TransportResult.response ⟨500, "Internal Server Error",
        [], some (Json.arr [])⟩)).2 = ApiResult.pyError "AttributeError" ∧
    (runRequest (mkClient none none 30) (TransportResult.response ⟨500, "Internal Server Error",
        [], some (Json.arr [])⟩)).2 ≠
      ApiResult.apiError (Json.str "Request failed") (Json.str "UNKNOWN") 500 Json.null :=
  ⟨rfl, fun h => ApiResult.noConfusion h⟩

/-- C4 amended: on a response with a status other than 2xx, 402 or 429 the
client fails with a generic API error built from the payload's `error`
(default "Request failed"), `code` (default "UNKNOWN"), the HTTP status and
the payload's `details` — provided the body is either unparsable as JSON
(in which case a minimal payload whose only message is `str(e)` is
synthesized, with the defaults for code and details) or parses to a JSON
object; a body parsing to a non-object JSON value instead raises an
attribute error. -/
theorem generic_api_error_fields (c : ClientState) (r : HttpResponse)
    (hs : ¬(200 ≤ r.status ∧ r.status < 300)) (h402 : r.status ≠ 402)
    (h429 : r.status ≠ 429) :
    (r.body = none →
        (runRequest c (TransportResult.response r)).2 =
          ApiResult.apiError (Json.str (httpErrorStr r.status r.reason)) (Json.str "UNKNOWN")
            r.status Json.null) ∧
    (∀ fields, r.body = some (Json.obj fields) →
        (runRequest c (TransportResult.response r)).2 =
          ApiResult.apiError (jsonGetD fields "error" (Json.str "Request failed"))
            (jsonGetD fields "code" (Json.str "UNKNOWN")) r.status
            (jsonGetD fields "details" Json.null)) := by
  constructor
  · intro hb
    simp [runRequest, handleHttpError, hs, hb, h402, h429, jsonGetD]
  · intro fields hb
    simp [runRequest, handleHttpError, hs, hb, h402, h429]

/-- C4 witness: a 500 response with a non-JSON body yields a generic API
error whose message is the synthesized `str(e)` fallback, not a parse
crash. -/
theorem generic_api_error_fields_witness :
    (runRequest (mkClient none none 30) (TransportResult.response
        ⟨500, "Internal Server Error", [], none⟩)).2 =
      ApiResult.apiError (Json.str "HTTP Error 500: Internal Server Error")
        (Json.str "UNKNOWN") 500 Json.null :=
  (generic_api_error_fields _ _ (by decide) (by decide) (by decide)).1 rfl

/-- C5: on a 402 response the client fails payment-required, carrying the
`X-Payment-Required` response header verbatim when present and nothing
otherwise. -/
theorem payment_required_on_402 (c : ClientState) (r : HttpResponse)
    (h : r.status = 402) :
    (runRequest c (TransportResult.response r)).2 =
      ApiResult.paymentRequired (headerGet r.headers "X-Payment-Required") := by
  simp [runRequest, handleHttpError, h]

/-- C5 witness: a 402 response with `X-Payment-Required: x402 token`
preserves that value verbatim in the failure. -/
theorem payment_required_on_402_witness :
    (runRequest (mkClient none none 30) (TransportResult.response ⟨402, "Payment Required",
        [("X-Payment-Required", "x402 token")], none⟩)).2 =
      ApiResult.paymentRequired (some "x402 token") :=
  payment_required_on_402 _ _ rfl

/-- C6 counterexample: a transport failure with reason "timed out" produces
a connection error whose message is "Connection error: timed out", not the
bare reason "timed out" — the source formats the message as
`f'Connection error: ...'` around the reason. -/
theorem connection_error_message_not_bare_reason :
    (runRequest (mkClient none none 30) (TransportResult.urlError "timed out")).2 =
      ApiResult.connectionError "Connection error: timed out" ∧
    (runRequest (mkClient none none 30) (TransportResult.urlError "timed out")).2 ≠
      ApiResult.connectionError "timed out" :=
  ⟨rfl, fun h => absurd (ApiResult.connectionError.inj h) (by decide)⟩

/-- C6 amended: on a transport-level failure the client fails with a
connection error whose message is the fixed text "Connection error: "
followed by the underlying transport failure reason verbatim; no HTTP
status is attached (the error's status is the constructor default 0) and
the client state is untouched. -/
theorem connection_error_message (c : ClientState) (reason : String) :
    (runRequest c (TransportResult.urlError reason)).2 =
      ApiResult.connectionError ("Connection error: " ++ reason) ∧
    (runRequest c (TransportResult.urlError reason)).1 = c :=
  ⟨rfl, rfl⟩

/-- C7: every request targets `{base_url}/api/v2{endpoint}` and carries the
fixed Accept, Content-Type and client-identifier headers; with a configured
(nonempty) API key the `X-API-Key` header carries it and without one the
header is absent, likewise `X-PAYMENT` for a supplied payment token; a
present (nonempty) body is serialized by `json.dumps` and an absent body is
omitted entirely. -/
theorem request_shape (c : ClientState) (endpoint method : String)
    (body : Option (List (String × Json))) (payment : Option String)
    (hk : c.api_key = none ∨ ∃ k, c.api_key = some k ∧ k ≠ "")
    (hp : payment = none ∨ ∃ q, payment = some q ∧ q ≠ "")
    (hb : body = none ∨ ∃ f, body = some f ∧ f ≠ []) :
    (buildRequest c endpoint method body payment).url =
        c.base_url ++ "/api/" ++ API_VERSION ++ endpoint ∧
    API_VERSION = "v2" ∧
    headerGet (buildRequest c endpoint method body payment).headers "Accept" =
        some "application/json" ∧
    headerGet (buildRequest c endpoint method body payment).headers "Content-Type" =
        some "application/json" ∧
    headerGet (buildRequest c endpoint method body payment).headers "User-Agent" =
        some "CryptoAPI-SDK-Python/2.0" ∧
    headerGet (buildRequest c endpoint method body payment).headers "X-API-Key" = c.api_key ∧
    headerGet (buildRequest c endpoint method body payment).headers "X-PAYMENT" = payment ∧
    (buildRequest c endpoint method body payment).data =
        body.map (fun f => Json.dumps (Json.obj f)) ∧
    (buildRequest c endpoint method body payment).method = method := by
  refine ⟨rfl, rfl, ?_, ?_, ?_, ?_, ?_, ?_, rfl⟩
  · obtain ⟨bu, ak, tm, rl⟩ := c; rfl
  · obtain ⟨bu, ak, tm, rl⟩ := c; rfl
  · obtain ⟨bu, ak, tm, rl⟩ := c; rfl
  · rw [headerGet_buildRequest_apiKey]
    obtain hkk | ⟨k, hkk, hk'⟩ := hk
    · rw [hkk]; rfl
    · rw [hkk]; simp [strTruthy, bne_iff_ne, hk']
  · rw [headerGet_buildRequest_payment]
    obtain rfl | ⟨q, rfl, hq'⟩ := hp
    · rfl
    · simp [strTruthy, bne_iff_ne, hq']
  · show (if dictTruthy body then body.map (fun f => Json.dumps (Json.obj f)) else none) = _
    obtain rfl | ⟨f, rfl, hf'⟩ := hb
    · rfl
    · cases f with
      | nil => exact absurd rfl hf'
      | cons a l => rfl

/-- C7 witness: with a configured key and a supplied payment token, the
built request carries both conditional headers with their values. -/
theorem request_shape_witness :
    headerGet (buildRequest (mkClient (some "cda_key") none 30) "/coins" "GET"
        (some [("requests", Json.arr [])]) (some "tok")).headers "X-API-Key" =
      some "cda_key" ∧
    headerGet (buildRequest (mkClient (some "cda_key") none 30) "/coins" "GET"
        (some [("requests", Json.arr [])]) (some "tok")).headers "X-PAYMENT" =
      some "tok" :=
  ⟨(request_shape (mkClient (some "cda_key") none 30) "/coins" "GET"
      (some [("requests", Json.arr [])]) (some "tok")
      (Or.inr ⟨"cda_key", rfl, by decide⟩) (Or.inr ⟨"tok", rfl, by decide⟩)
      (Or.inr ⟨[("requests", Json.arr [])], rfl, List.cons_ne_nil _ _⟩)).2.2.2.2.2.1,
   (request_shape (mkClient (some "cda_key") none 30) "/coins" "GET"
      (some [("requests", Json.arr [])]) (some "tok")
      (Or.inr ⟨"cda_key", rfl, by decide⟩) (Or.inr ⟨"tok", rfl, by decide⟩)
      (Or.inr ⟨[("requests", Json.arr [])], rfl, List.cons_ne_nil _ _⟩)).2.2.2.2.2.2.1⟩

/-- C8: `get_coins` maps `sparkline` to an absent parameter when `False`
and to the string "true" when `True`; the concrete call with page 2,
per-page 10 and sparkline on yields exactly the query string below, which
omits `ids`. -/
theorem get_coins_sparkline_query :
    (∀ (page per_page : Int) (order : String) (ids : Option String),
        (get_coins_params page per_page order ids false).lookup "sparkline" = some none ∧
        (get_coins_params page per_page order ids true).lookup "sparkline" =
          some (some "true")) ∧
    get_coins_endpoint 2 10 "market_cap_desc" none true =
        "/coins?page=2&per_page=10&order=market_cap_desc&sparkline=true" ∧
    get_coins_endpoint 2 10 "market_cap_desc" none false =
        "/coins?page=2&per_page=10&order=market_cap_desc" ∧
    "ids" ∉ (filterParams (get_coins_params 2 10 "market_cap_desc" none true)).map Prod.fst :=
  ⟨fun _ _ _ _ => ⟨rfl, rfl⟩, rfl, rfl, by decide⟩

/-- C9: for every coin id, `get_coin(id)` issues a GET request whose URL is
`{base}/api/v2/coin/{id}` with the id path-escaped by `urllib.parse.quote`
(witnessed concretely by a space escaping to `%20`); in particular
`get_coin("bitcoin")` targets `/coin/bitcoin`, and a 2xx response with body
`data.price = 65000` is returned as that JSON value, whose `data.price`
field equals 65000. -/
theorem get_coin_scenario (c : ClientState) :
    (∀ id : String,
        (buildRequest c (get_coin_endpoint id) "GET" none none).url =
          c.base_url ++ "/api/v2/coin/" ++ pyQuote id ∧
        (buildRequest c (get_coin_endpoint id) "GET" none none).method = "GET") ∧
    get_coin_endpoint "a coin" = "/coin/a%20coin" ∧
    get_coin_endpoint "bitcoin" = "/coin/bitcoin" ∧
    (runRequest c (TransportResult.response ⟨200, "OK", [],
        some (Json.obj [("data", Json.obj [("price", Json.num 65000)])])⟩)).2 =
      ApiResult.ok (Json.obj [("data", Json.obj [("price", Json.num 65000)])]) ∧
    ((jsonLookup (Json.obj [("data", Json.obj [("price", Json.num 65000)])]) "data").bind
        (fun d => jsonLookup d "price")) = some (Json.num 65000) := by
  refine ⟨?_, rfl, rfl, ?_, rfl⟩
  · intro id
    refine ⟨?_, rfl⟩
    show c.base_url ++ "/api/" ++ API_VERSION ++ ("/coin/" ++ pyQuote id) =
      c.base_url ++ "/api/v2/coin/" ++ pyQuote id
    have h : "/api/" ++ (API_VERSION ++ ("/coin/" ++ pyQuote id)) =
        "/api/v2/coin/" ++ pyQuote id := by
      rw [← String.append_assoc, ← String.append_assoc]
      rfl
    simp only [String.append_assoc]
    rw [h]
  · obtain ⟨bu, ak, tm, rl⟩ := c
    rfl

/-- C10: a built request carries the `X-API-Key` header exactly when the
stored API key is truthy (a present nonempty string) — so after
`set_api_key("")` the built request is identical to that of a client
holding no API key at all. -/
theorem api_key_truthiness (c : ClientState) (endpoint method : String)
    (body : Option (List (String × Json))) (payment : Option String) :
    headerGet (buildRequest c endpoint method body payment).headers "X-API-Key" =
      (if strTruthy c.api_key then c.api_key else none) ∧
    buildRequest (set_api_key c "") endpoint method body payment =
      buildRequest { c with api_key := none } endpoint method body payment :=
  ⟨headerGet_buildRequest_apiKey c endpoint method body payment, rfl⟩
